import Mathlib

/-!
Verification development for the Meesho supplier-quality agent
(`meesho_ai_agent_with_tickets.py`, three concatenated variants, plus
`email_alerts.py`).

The Python source is shallowly embedded: pure helpers become Lean
functions; the Streamlit run block becomes an explicit state-passing
fold over the uploaded rows; external effects (wall clock, SMTP server)
become explicit parameters (a clock schedule and an SMTP outcome
oracle); Python exceptions become `Except` values or an `error` field in
the run trace.
-/

namespace Meesho

/-! ## Python string primitives

Python `needle in hay` is substring containment and `str.lower()` maps
each character to lower case.  Both are modelled on the character lists
underlying `String`. -/

/-- `leadMatch needle hay` is true when `needle` is an initial segment of
`hay` (helper for substring containment). -/
def leadMatch : List Char → List Char → Bool
  | [], _ => true
  | _ :: _, [] => false
  | c :: cs, d :: ds => c == d && leadMatch cs ds

/-- `subStr needle hay` models Python `needle in hay`: `needle` occurs as
a contiguous substring of `hay`. -/
def subStr (needle : List Char) : List Char → Bool
  | [] => needle.isEmpty
  | c :: cs => leadMatch needle (c :: cs) || subStr needle cs

/-- Python `needle in hay` on strings. -/
def pyIn (needle hay : String) : Bool := subStr needle.data hay.data

/-- Python `text.lower()`. -/
def pyLower (s : String) : String := String.mk (s.data.map Char.toLower)

/-! ## Categories

The code represents classification results as the literal strings
`"Supplier Issue"`, `"Logistics Issue"`, `"Customer Issue"` and
`"Unknown"`, which are only ever produced as and compared against these
constants; the embedding uses a closed enumeration. -/

/-- Classification categories (the code's literal category strings). -/
inductive Category where
  | SupplierIssue
  | LogisticsIssue
  | CustomerIssue
  | Unknown
deriving DecidableEq, Repr

/-- Variant 1 `call_openai_classify` (part_000 lines 52-59): lowercase the
text, then check `"damage"/"wrong"/"missing"/"color"` (note: no
`"defect"`), then `"late"/"courier"/"delivery"`, else Customer Issue. -/
def classifyV1 (text : String) : Category :=
  if pyIn "damage" (pyLower text) || pyIn "wrong" (pyLower text)
      || pyIn "missing" (pyLower text) || pyIn "color" (pyLower text) then
    Category.SupplierIssue
  else if pyIn "late" (pyLower text) || pyIn "courier" (pyLower text)
      || pyIn "delivery" (pyLower text) then
    Category.LogisticsIssue
  else
    Category.CustomerIssue

/-- Variant 3 supplier keywords (part_000 line 389). -/
def supplierKeywordsV3 : List String := ["damage", "wrong", "missing", "color", "defect"]

/-- Logistics keywords (part_000 lines 56 and 391). -/
def logisticsKeywords : List String := ["late", "courier", "delivery"]

/-- Variant 3 `call_openai_classify` (part_000 lines 387-394): same shape
as variant 1 but with `any(word in text for word in [...])` over a
five-word supplier list including `"defect"`. -/
def classifyV3 (text : String) : Category :=
  if supplierKeywordsV3.any (fun w => pyIn w (pyLower text)) then
    Category.SupplierIssue
  else if logisticsKeywords.any (fun w => pyIn w (pyLower text)) then
    Category.LogisticsIssue
  else
    Category.CustomerIssue

/-! ## Rows, tickets and the ledger -/

/-- A row of the uploaded complaints dataframe, as the dict produced by
`df.iterrows()` / `.to_dict()`: an association list from column name to
cell value. -/
abbrev Row := List (String × String)

/-- Python `complaint_row.get(key, "")`. -/
def rowGet (r : Row) (k : String) : String := (r.lookup k).getD ""

/-- An uploaded batch: the dataframe's column set plus its rows in file
order. -/
structure Batch where
  cols : List String
  rows : List Row
deriving Repr

/-- A ticket record as built by `create_ticket_entry`. -/
structure Ticket where
  ticketId : String
  complaintId : String
  supplier : String
  product : String
  orderId : String
  issue : String
  createdAt : String
  status : String
  notes : String
deriving DecidableEq, Repr

/-- `create_ticket_entry` (part_000 lines 62-79, identical at 242-260 and
397-414), with the wall clock made explicit: `nowMs` is
`int(time.time()*1000)` and `nowStr` is
`datetime.now().isoformat(sep=' ', timespec='seconds')` at call time.
The file append it performs is modelled separately (`appendTicket`), at
the point where the run folds call this function. -/
def createTicketEntry (nowMs : Nat) (nowStr : String) (complaintRow : Row)
    (issueText : String) : Ticket :=
  { ticketId := "T" ++ toString nowMs
    complaintId := rowGet complaintRow "Complaint_ID"
    supplier := rowGet complaintRow "Supplier"
    product := rowGet complaintRow "Product"
    orderId := rowGet complaintRow "Order_ID"
    issue := issueText
    createdAt := nowStr
    status := "Open"
    notes := "" }

/-- The tickets file, modelled at row granularity: the list of CSV
records (header row first, then one row per ticket). -/
abbrev Ledger := List (List String)

/-- The header row written when `tickets.csv` does not exist (part_000
lines 44-48). -/
def ticketsHeader : List String :=
  ["Ticket_ID", "Complaint_ID", "Supplier", "Product", "Order_ID", "Issue",
   "Created_At", "Status", "Notes"]

/-- A freshly initialized tickets file: just the header. -/
def initLedger : Ledger := [ticketsHeader]

/-- `csv.writer.writerow(ticket.values())`: the ticket's fields in dict
insertion order, which matches the header column order. -/
def ticketToRow (t : Ticket) : List String :=
  [t.ticketId, t.complaintId, t.supplier, t.product, t.orderId, t.issue,
   t.createdAt, t.status, t.notes]

/-- The append performed inside `create_ticket_entry` (open in mode "a",
write one row). -/
def appendTicket (led : Ledger) (t : Ticket) : Ledger := led ++ [ticketToRow t]

/-- Parsing one stored CSV record back into a ticket (column order as in
the header). -/
def rowToTicket (r : List String) : Ticket :=
  { ticketId := r.getD 0 ""
    complaintId := r.getD 1 ""
    supplier := r.getD 2 ""
    product := r.getD 3 ""
    orderId := r.getD 4 ""
    issue := r.getD 5 ""
    createdAt := r.getD 6 ""
    status := r.getD 7 ""
    notes := r.getD 8 "" }

/-- `pd.read_csv(TICKETS_FILE)` (part_000 lines 162-166): all records
after the header, in on-disk order. -/
def readAllTickets (led : Ledger) : List Ticket := (led.drop 1).map rowToTicket

/-! ## The notifier

SMTP traffic is external I/O; one notification attempt's outcome is an
oracle value: either the connect/starttls/login/sendmail sequence
succeeds, or some step raises an exception carrying a reason string. -/

/-- Outcome of the SMTP session attempted inside the `try` block. -/
inductive SmtpOutcome where
  | ok
  | fail (reason : String)
deriving DecidableEq, Repr

/-- The module-level SMTP settings (`SMTP_SERVER`, `EMAIL_USERNAME`,
`EMAIL_PASSWORD`); an unset environment variable is the empty string
(Python `None` is falsy exactly like `""` in the guard used here). -/
structure EmailConfig where
  smtpServer : String
  emailUsername : String
  emailPassword : String
deriving DecidableEq, Repr

/-- Python `SMTP_SERVER and EMAIL_USERNAME and EMAIL_PASSWORD` truthiness
(part_000 line 83). -/
def emailConfigured (c : EmailConfig) : Bool :=
  !(c.smtpServer == "") && !(c.emailUsername == "") && !(c.emailPassword == "")

/-- The `try` block of variant 1 `send_email_alert` (part_000 lines
87-107): build the MIME message (pure, cannot raise) and run the SMTP
session; an SMTP exception propagates as `Except.error`. -/
def smtpTryBlock (c : EmailConfig) (oracle : SmtpOutcome) (ticket : Ticket)
    (recipient : String) : Except String (Bool × String) :=
  let _subject := "[Meesho] New Supplier Ticket " ++ ticket.ticketId
  let _toAddr := recipient
  let _fromAddr := c.emailUsername
  match oracle with
  | SmtpOutcome.ok => Except.ok (true, "Email sent successfully.")
  | SmtpOutcome.fail e => Except.error e

/-- Variant 1 `send_email_alert(ticket, recipient)` (part_000 lines
82-110): guard on configuration, then the `try` block with
`except Exception as e: return False, str(e)`. -/
def sendEmailAlert (c : EmailConfig) (oracle : SmtpOutcome) (ticket : Ticket)
    (recipient : String) : Bool × String :=
  if emailConfigured c = false then (false, "Email settings not configured.")
  else
    match smtpTryBlock c oracle ticket recipient with
    | Except.ok p => p
    | Except.error e => (false, e)

/-- Variant 2 `send_email_alert(recipient, supplier, count)` (part_000
lines 262-286): same guard/try/except shape, different message. -/
def sendEmailAlertV2 (c : EmailConfig) (oracle : SmtpOutcome)
    (recipient supplierName : String) (count : Nat) : Bool × String :=
  let _subject := "[ALERT] Supplier " ++ supplierName ++ " has " ++ toString count ++ " issues!"
  let _toAddr := recipient
  if emailConfigured c = false then (false, "Email settings not configured.")
  else
    match oracle with
    | SmtpOutcome.ok => (true, "Email alert sent successfully.")
    | SmtpOutcome.fail e => (false, e)

/-- A Streamlit status display call. -/
inductive StMsg where
  | success (text : String)
  | error (text : String)
deriving DecidableEq, Repr

/-- What one call of `email_alerts.send_email_alert` produces: the status
message it displays and the value it returns to its caller. -/
structure EmailAlertsResult where
  displayed : StMsg
  returned : Option (Bool × String)
deriving DecidableEq, Repr

/-- `email_alerts.py` `send_email_alert(to_email, supplier_name,
issue_count)` (lines 9-33): build the message, attempt SMTP_SSL
login/send inside `try`, display `st.success` on success and `st.error`
on exception; both paths fall off the end of the function, returning
Python `None` (modelled as `returned := none`). -/
def emailAlertsSendEmailAlert (emailUser _emailPass : String)
    (oracle : SmtpOutcome) (toEmail supplierName : String)
    (issueCount : Nat) : EmailAlertsResult :=
  let _fromAddr := emailUser
  let _count := issueCount
  match oracle with
  | SmtpOutcome.ok =>
      { displayed := StMsg.success ("✅ Email sent to " ++ toEmail ++ " for supplier " ++ supplierName)
        returned := none }
  | SmtpOutcome.fail e =>
      { displayed := StMsg.error ("❌ Error sending email: " ++ e)
        returned := none }

/-! ## The run block

The Streamlit run block is embedded as explicit state passing: a
`RunState` accumulates the tickets file, the created-tickets list, the
notification attempts and the number of tickets created so far (which
indexes the clock schedule `clock : Nat -> Nat × String` giving each
`create_ticket_entry` call its `time.time()*1000` value and
`datetime.now()` string). -/

/-- Mutable state of one run: the tickets file, `new_tickets`, the
outcomes of the `send_email_alert` calls made so far, and the number of
tickets created so far. -/
structure RunState where
  ledger : Ledger
  tickets : List Ticket
  notifs : List (Bool × String)
  tick : Nat
deriving Repr

/-- Issue text of per-row tickets (part_000 lines 140, 325, 494). -/
def perRowIssueText : String := "Supplier Issue detected from complaint text"

/-- One iteration of the per-row ticket loop (part_000 lines 138-143 and
492-497): if the row classified as Supplier Issue, create a ticket,
append it to the file and the list, and notify when `gate` holds
(variant 1: `email_alerts and USE_EMAIL_ALERTS`; variant 3:
`email_alerts`; variant 2: no notification in this loop). -/
def perRowStep (classify : String → Category) (gate : Bool) (ecfg : EmailConfig)
    (recipient : String) (clock : Nat → Nat × String) (oracle : Nat → SmtpOutcome)
    (st : RunState) (r : Row) : RunState :=
  if classify (rowGet r "Message") == Category.SupplierIssue then
    let t := createTicketEntry (clock st.tick).1 (clock st.tick).2 r perRowIssueText
    let st1 : RunState := ⟨appendTicket st.ledger t, st.tickets ++ [t], st.notifs, st.tick + 1⟩
    if gate then
      ⟨st1.ledger, st1.tickets,
       st1.notifs ++ [sendEmailAlert ecfg (oracle st1.notifs.length) t recipient], st1.tick⟩
    else st1
  else st

/-- The per-row ticket loop over the whole dataframe. -/
def perRowPhase (classify : String → Category) (gate : Bool) (ecfg : EmailConfig)
    (recipient : String) (clock : Nat → Nat × String) (oracle : Nat → SmtpOutcome)
    (rows : List Row) (st : RunState) : RunState :=
  rows.foldl (perRowStep classify gate ecfg recipient clock oracle) st

/-- One iteration of the aggregate-ticket loop (part_000 lines 145-151,
329-333, 500-507): for a `(supplier, count)` pair whose count reaches
the threshold, take the first dataframe row of that supplier
(`df[df["Supplier"] == supplier].iloc[0]`) as the sample row, create an
aggregate ticket and optionally notify.  The `none` branch of the
`find?` is unreachable whenever every counted supplier occurs in the
dataframe (in Python, `.iloc[0]` on an empty selection would raise). -/
def aggregateStep (mkIssue : String → Nat → String) (gate : Bool)
    (ecfg : EmailConfig) (recipient : String) (clock : Nat → Nat × String)
    (oracle : Nat → SmtpOutcome) (rows : List Row) (threshold : Nat)
    (st : RunState) (p : String × Nat) : RunState :=
  if threshold ≤ p.2 then
    match rows.find? (fun r => rowGet r "Supplier" == p.1) with
    | some sample =>
      let t := createTicketEntry (clock st.tick).1 (clock st.tick).2 sample (mkIssue p.1 p.2)
      let st1 : RunState := ⟨appendTicket st.ledger t, st.tickets ++ [t], st.notifs, st.tick + 1⟩
      if gate then
        ⟨st1.ledger, st1.tickets,
         st1.notifs ++ [sendEmailAlert ecfg (oracle st1.notifs.length) t recipient], st1.tick⟩
      else st1
    | none => st
  else st

/-- The aggregate-ticket loop over the supplier counts. -/
def aggregatePhase (mkIssue : String → Nat → String) (gate : Bool)
    (ecfg : EmailConfig) (recipient : String) (clock : Nat → Nat × String)
    (oracle : Nat → SmtpOutcome) (rows : List Row) (threshold : Nat)
    (counts : List (String × Nat)) (st : RunState) : RunState :=
  counts.foldl (aggregateStep mkIssue gate ecfg recipient clock oracle rows threshold) st

/-! ## Supplier counts -/

/-- Insert `a` into a sorted list, after any element `b` with `le b a`
(so the resulting sort is stable). -/
def insSorted (le : α → α → Bool) (a : α) : List α → List α
  | [] => [a]
  | b :: bs => if le b a then b :: insSorted le a bs else a :: b :: bs

/-- Stable insertion sort by a boolean comparison (models the sorted
output of pandas `value_counts` / `groupby`). -/
def stableSortBy (le : α → α → Bool) (l : List α) : List α :=
  l.foldl (fun acc a => insSorted le a acc) []

/-- Lexicographic comparison of strings by code point, as pandas sorts
object keys. -/
def strLeAux : List Char → List Char → Bool
  | [], _ => true
  | _ :: _, [] => false
  | a :: as, b :: bs => if a == b then strLeAux as bs else decide (a.val < b.val)

/-- String comparison used to model the ascending key sort of `groupby`. -/
def strLe (a b : String) : Bool := strLeAux a.data b.data

/-- Key extraction helper: the distinct values of a list in first-seen
order (the key order a pandas hash-based grouping produces before its
final sort). -/
def seenAux : List String → List String → List String
  | acc, [] => acc.reverse
  | acc, s :: rest => if s ∈ acc then seenAux acc rest else seenAux (s :: acc) rest

/-- Distinct values of a list, keeping the first occurrence's position. -/
def distinctFirstSeen (l : List String) : List String := seenAux [] l

/-- `df[df["AI_Category"] == "Supplier Issue"]` (part_000 lines 133, 311):
the rows classified Supplier Issue. -/
def strictRows (classify : String → Category) (rows : List Row) : List Row :=
  rows.filter (fun r => classify (rowGet r "Message") == Category.SupplierIssue)

/-- The `Supplier` column of the Supplier Issue rows. -/
def strictSuppliers (classify : String → Category) (rows : List Row) : List String :=
  (strictRows classify rows).map (fun r => rowGet r "Supplier")

/-- How many Supplier Issue rows a given supplier has in the batch. -/
def strictCount (classify : String → Category) (rows : List Row) (s : String) : Nat :=
  (strictSuppliers classify rows).count s

/-- `value_counts()` of the `Supplier` column of the Supplier Issue rows
(part_000 lines 133, 311): each supplier occurring there, with its
occurrence count, sorted by count descending (pandas `value_counts`
default). -/
def supplierCountsStrict (classify : String → Category) (rows : List Row) :
    List (String × Nat) :=
  stableSortBy (fun p q => decide (q.2 ≤ p.2))
    ((distinctFirstSeen (strictSuppliers classify rows)).map
      (fun s => (s, strictCount classify rows s)))

/-- Variant 3 `df.groupby("Supplier")["Complaint_ID"].count()` (part_000
line 485): the number of rows of EVERY supplier, regardless of category,
with keys sorted ascending (pandas `groupby` default). -/
def supplierCountsAll (rows : List Row) : List (String × Nat) :=
  (stableSortBy strLe (distinctFirstSeen (rows.map (fun r => rowGet r "Supplier")))).map
    (fun s => (s, (rows.map (fun r => rowGet r "Supplier")).count s))

/-- Variant 1 aggregate issue text (part_000 line 148; also line 332). -/
def mkIssueV1 (_supplier : String) (cnt : Nat) : String :=
  "Aggregate alert: " ++ toString cnt ++ " supplier issues in upload"

/-- Variant 3 aggregate issue text (part_000 line 504). -/
def mkIssueV3 (supplierName : String) (cnt : Nat) : String :=
  "Aggregate alert: " ++ toString cnt ++ " total complaints for " ++ supplierName

/-! ## Whole runs -/

/-- Trace of one button press: the `AI_Category` values computed (empty
when classification never ran), the created tickets, the notification
outcomes, the resulting tickets file, and the uncaught exception or
displayed rejection, if any. -/
structure RunTrace where
  classified : List Category
  tickets : List Ticket
  notifs : List (Bool × String)
  ledger : Ledger
  error : Option String
deriving Repr

/-- Columns selected for display right after classification (part_000
lines 131, 482); `AI_Category` was just added so only these three can be
missing.  A missing one raises a `KeyError` AFTER classification. -/
def displayCols : List String := ["Complaint_ID", "Message", "Supplier"]

/-- The run block shared by variants 1 and 3 (part_000 lines 127-158 and
478-514), which have no required-column check: classification
(`df["Message"].apply(...)`, raising if `Message` is absent), the
display selection (raising if one of `displayCols` is absent), the
per-row ticket loop, then the aggregate-ticket loop. -/
def runMain (classify : String → Category) (countsOf : List Row → List (String × Nat))
    (mkIssue : String → Nat → String) (gate : Bool) (ecfg : EmailConfig)
    (recipient : String) (clock : Nat → Nat × String) (oracle : Nat → SmtpOutcome)
    (threshold : Nat) (led0 : Ledger) (b : Batch) : RunTrace :=
  if b.cols.contains "Message" = false then
    ⟨[], [], [], led0, some "KeyError: Message"⟩
  else if (displayCols.all (fun c => b.cols.contains c)) = false then
    ⟨b.rows.map (fun r => classify (rowGet r "Message")), [], [], led0,
     some "KeyError: display column"⟩
  else
    ⟨b.rows.map (fun r => classify (rowGet r "Message")),
     (aggregatePhase mkIssue gate ecfg recipient clock oracle b.rows threshold
        (countsOf b.rows)
        (perRowPhase classify gate ecfg recipient clock oracle b.rows
          ⟨led0, [], [], 0⟩)).tickets,
     (aggregatePhase mkIssue gate ecfg recipient clock oracle b.rows threshold
        (countsOf b.rows)
        (perRowPhase classify gate ecfg recipient clock oracle b.rows
          ⟨led0, [], [], 0⟩)).notifs,
     (aggregatePhase mkIssue gate ecfg recipient clock oracle b.rows threshold
        (countsOf b.rows)
        (perRowPhase classify gate ecfg recipient clock oracle b.rows
          ⟨led0, [], [], 0⟩)).ledger,
     none⟩

/-- Variant 1 run (part_000 lines 122-158): rule-based classifier without
`"defect"`, strict supplier counts, notification gated on
`email_alerts and USE_EMAIL_ALERTS`. -/
def runV1 (emailAlerts useEmailAlerts : Bool) (ecfg : EmailConfig)
    (recipient : String) (clock : Nat → Nat × String) (oracle : Nat → SmtpOutcome)
    (threshold : Nat) (led0 : Ledger) (b : Batch) : RunTrace :=
  runMain classifyV1 (supplierCountsStrict classifyV1) mkIssueV1
    (emailAlerts && useEmailAlerts) ecfg recipient clock oracle threshold led0 b

/-- Variant 3 run (part_000 lines 473-514): rule-based classifier with
`"defect"`, all-rows supplier counts, notification gated on
`email_alerts` alone. -/
def runV3 (emailAlerts : Bool) (ecfg : EmailConfig) (recipient : String)
    (clock : Nat → Nat × String) (oracle : Nat → SmtpOutcome) (threshold : Nat)
    (led0 : Ledger) (b : Batch) : RunTrace :=
  runMain classifyV3 supplierCountsAll mkIssueV3 emailAlerts ecfg recipient
    clock oracle threshold led0 b

/-- Variant 2 required columns (part_000 line 301). -/
def requiredColsV2 : List String := ["Complaint_ID", "Message", "Supplier", "Product"]

/-- Variant 2 fixed alert recipient (part_000 line 194). -/
def alertEmail : String := "yuvaneshbabu007@gmail.com"

/-- Variant 2 fixed email threshold (part_000 line 195). -/
def emailThresholdV2 : Nat := 3

/-- Variant 2 run (part_000 lines 296-340): checks the required columns
BEFORE doing anything else and rejects the upload with an error display
when one is missing; otherwise classifies (classifier passed as a
parameter because variant 2's is a remote call), sends the
over-threshold supplier email alerts, then creates per-row and aggregate
tickets without per-ticket notification. -/
def runV2 (classify : String → Category) (ecfg : EmailConfig)
    (clock : Nat → Nat × String) (oracle : Nat → SmtpOutcome) (threshold : Nat)
    (led0 : Ledger) (b : Batch) : RunTrace :=
  if (requiredColsV2.all (fun c => b.cols.contains c)) = false then
    ⟨[], [], [], led0,
     some "Uploaded CSV must contain columns: Complaint_ID, Message, Supplier, Product"⟩
  else
    let cats := b.rows.map (fun r => classify (rowGet r "Message"))
    let counts := supplierCountsStrict classify b.rows
    let alerts := (counts.filter (fun p => emailThresholdV2 < p.2)).enum.map
      (fun ip => sendEmailAlertV2 ecfg (oracle ip.1) alertEmail ip.2.1 ip.2.2)
    let st1 := perRowPhase classify false ecfg alertEmail clock oracle b.rows ⟨led0, [], [], 0⟩
    let st2 := aggregatePhase mkIssueV1 false ecfg alertEmail clock oracle b.rows threshold
      counts st1
    ⟨cats, st2.tickets, alerts, st2.ledger, none⟩

/-! ## Reference shapes of the two ticket loops

The two loops above are folds threading the whole `RunState`; the
following two functions compute just the list of tickets such a fold
creates, starting from tick index `k`.  They are proved to characterize
the folds and make the counting arguments direct. -/

/-- The tickets the per-row loop creates from `rows`, the first one at
tick `k`. -/
def perRowTicketsFrom (classify : String → Category) (clock : Nat → Nat × String) :
    List Row → Nat → List Ticket
  | [], _ => []
  | r :: rest, k =>
    if classify (rowGet r "Message") == Category.SupplierIssue then
      createTicketEntry (clock k).1 (clock k).2 r perRowIssueText
        :: perRowTicketsFrom classify clock rest (k + 1)
    else perRowTicketsFrom classify clock rest k

/-- The tickets the aggregate loop creates from the count list, the
first one at tick `k`. -/
def aggTicketsFrom (mkIssue : String → Nat → String) (clock : Nat → Nat × String)
    (rows : List Row) (threshold : Nat) : List (String × Nat) → Nat → List Ticket
  | [], _ => []
  | p :: rest, k =>
    if threshold ≤ p.2 then
      match rows.find? (fun r => rowGet r "Supplier" == p.1) with
      | some sample =>
          createTicketEntry (clock k).1 (clock k).2 sample (mkIssue p.1 p.2)
            :: aggTicketsFrom mkIssue clock rows threshold rest (k + 1)
      | none => aggTicketsFrom mkIssue clock rows threshold rest k
    else aggTicketsFrom mkIssue clock rows threshold rest k

/-- The clock-independent fields of a ticket. -/
def ticketFields (t : Ticket) : String × String × String × String × String :=
  (t.complaintId, t.supplier, t.product, t.orderId, t.issue)

/-- The ticket fields a per-row ticket takes from its complaint row. -/
def rowFields (r : Row) : String × String × String × String × String :=
  (rowGet r "Complaint_ID", rowGet r "Supplier", rowGet r "Product",
   rowGet r "Order_ID", perRowIssueText)

/-! ## Concrete fixtures

Used by the closed witness and counterexample statements below. -/

/-- A clock frozen inside one millisecond: every ticket creation sees the
same `time.time()*1000`. -/
def frozenClock : Nat → Nat × String := fun _ => (1699999999999, "2023-11-14 22:13:19")

/-- An SMTP oracle whose every session succeeds. -/
def okOracle : Nat → SmtpOutcome := fun _ => SmtpOutcome.ok

/-- A fully populated email configuration. -/
def cfgFull : EmailConfig := ⟨"smtp.gmail.com", "user@example.com", "pw"⟩

/-- An email configuration with no password set. -/
def cfgNoPass : EmailConfig := ⟨"smtp.gmail.com", "user@example.com", ""⟩

/-- Complaint row: damaged parcel from Acme. -/
def rowDamaged : Row :=
  [("Complaint_ID", "C1"), ("Message", "Damaged parcel"), ("Supplier", "Acme"),
   ("Product", "Shoe")]

/-- Complaint row: wrong color from Acme. -/
def rowWrongColor : Row :=
  [("Complaint_ID", "C2"), ("Message", "Wrong color"), ("Supplier", "Acme"),
   ("Product", "Shoe")]

/-- Complaint row with no supplier keyword in the message. -/
def rowAllGood : Row :=
  [("Complaint_ID", "C1"), ("Message", "all good"), ("Supplier", "Acme"),
   ("Product", "Shoe")]

/-- A batch of two Acme supplier-issue complaints. -/
def batchTwoDamaged : Batch :=
  ⟨["Complaint_ID", "Message", "Supplier", "Product"], [rowDamaged, rowWrongColor]⟩

/-- A batch with one complaint that is not a supplier issue. -/
def batchAllGood : Batch :=
  ⟨["Complaint_ID", "Message", "Supplier", "Product"], [rowAllGood]⟩

/-- A batch whose dataframe has no `Supplier` column. -/
def batchNoSupplierCol : Batch :=
  ⟨["Complaint_ID", "Message", "Product"],
   [[("Complaint_ID", "C1"), ("Message", "Damaged parcel"), ("Product", "Shoe")]]⟩

/-- A single damaged-parcel batch. -/
def batchOneDamaged : Batch :=
  ⟨["Complaint_ID", "Message", "Supplier", "Product"], [rowDamaged]⟩

/-- A concrete ticket. -/
def sampleTicket : Ticket :=
  createTicketEntry 1699999999999 "2023-11-14 22:13:19" rowDamaged perRowIssueText

end Meesho

namespace Meesho

/-! # Lemmas and claim theorems -/

/-! ## The ledger (C7) -/

theorem rowToTicket_ticketToRow (t : Ticket) : rowToTicket (ticketToRow t) = t := rfl

theorem foldl_appendTicket (ts : List Ticket) :
    ∀ led : Ledger, ts.foldl appendTicket led = led ++ ts.map ticketToRow := by
  induction ts with
  | nil => intro led; simp
  | cons t ts ih => intro led; simp [appendTicket, ih]

/-- C7: appending N tickets one by one to an initialized tickets file and
reading it back returns exactly those N tickets, in append order,
field-for-field equal; the header row (the fixed column order
Ticket_ID, Complaint_ID, Supplier, Product, Order_ID, Issue, Created_At,
Status, Notes) stays in front. -/
theorem ledger_round_trip (ts : List Ticket) :
    readAllTickets (ts.foldl appendTicket initLedger) = ts ∧
    (ts.foldl appendTicket initLedger).head? = some ticketsHeader := by
  rw [foldl_appendTicket]
  constructor
  · simp [readAllTickets, initLedger, List.map_map]
    have : rowToTicket ∘ ticketToRow = id := funext rowToTicket_ticketToRow
    simp [this]
  · simp [initLedger]

/-! ## The classifiers (C2, C9) -/

/-- C2 (amended): a message whose lowercase form contains one of the five
supplier keywords is classified SupplierIssue by the variant 3
classifier, regardless of any logistics keyword also present (the
supplier check comes first); variant 1 behaves the same for its
four-keyword list damage/wrong/missing/color (it omits "defect"). -/
theorem classify_supplier_keyword_first (s : String) :
    (supplierKeywordsV3.any (fun w => pyIn w (pyLower s)) = true →
      classifyV3 s = Category.SupplierIssue) ∧
    ((pyIn "damage" (pyLower s) || pyIn "wrong" (pyLower s) || pyIn "missing" (pyLower s)
        || pyIn "color" (pyLower s)) = true →
      classifyV1 s = Category.SupplierIssue) := by
  constructor
  · intro h; simp [classifyV3, h]
  · intro h; simp [classifyV1, h]

/-- C2 witness: a message with both a supplier and a logistics keyword is
SupplierIssue under both rule-based classifiers. -/
theorem classify_supplier_keyword_first_witness :
    classifyV3 "Wrong color but late delivery" = Category.SupplierIssue ∧
    classifyV1 "Wrong color but late delivery" = Category.SupplierIssue :=
  ⟨(classify_supplier_keyword_first "Wrong color but late delivery").1 (by decide),
   (classify_supplier_keyword_first "Wrong color but late delivery").2 (by decide)⟩

/-- C2 counterexample: the variant 1 keyword list omits "defect", so a
message containing "defect" (and no other keyword) is classified
CustomerIssue, not SupplierIssue, contradicting the claim for variant 1. -/
theorem classifyV1_defect_customer :
    classifyV1 "Product has a defect" = Category.CustomerIssue := by decide

/-- C9: a message whose lowercase form contains none of the supplier
keywords and none of the logistics keywords is classified CustomerIssue
by both rule-based classifiers, and the rule-based classifiers never
return Unknown for any input. -/
theorem classify_default_customer (s : String) :
    ((supplierKeywordsV3.any (fun w => pyIn w (pyLower s)) = false) →
     (logisticsKeywords.any (fun w => pyIn w (pyLower s)) = false) →
     classifyV1 s = Category.CustomerIssue ∧ classifyV3 s = Category.CustomerIssue) ∧
    classifyV1 s ≠ Category.Unknown ∧ classifyV3 s ≠ Category.Unknown := by
  refine ⟨fun h1 h2 => ⟨?_, ?_⟩, ?_, ?_⟩
  · have H := List.any_eq_false.mp h1
    have HL := List.any_eq_false.mp h2
    have hd := H "damage" (by simp [supplierKeywordsV3])
    have hw := H "wrong" (by simp [supplierKeywordsV3])
    have hm := H "missing" (by simp [supplierKeywordsV3])
    have hc := H "color" (by simp [supplierKeywordsV3])
    have hl := HL "late" (by simp [logisticsKeywords])
    have hco := HL "courier" (by simp [logisticsKeywords])
    have hde := HL "delivery" (by simp [logisticsKeywords])
    simp only [Bool.not_eq_true] at hd hw hm hc hl hco hde
    simp [classifyV1, hd, hw, hm, hc, hl, hco, hde]
  · simp [classifyV3, h1, h2]
  · unfold classifyV1; split
    · simp
    · split <;> simp
  · unfold classifyV3; split
    · simp
    · split <;> simp

/-- C9 witness: a keyword-free message is CustomerIssue under both
classifiers. -/
theorem classify_default_customer_witness :
    classifyV1 "nice product" = Category.CustomerIssue ∧
    classifyV3 "nice product" = Category.CustomerIssue :=
  (classify_default_customer "nice product").1 (by decide) (by decide)

/-! ## Ticket ids under a frozen clock (C3) -/

/-- C3 (code bug): `ticket_id` is `"T" + int(time.time()*1000)` and
nothing else, so two tickets created within the same clock millisecond
in one run receive the SAME id: running variant 1 on a batch of two
supplier-issue complaints under a clock frozen at one millisecond
creates two tickets whose ids are both `T1699999999999`. -/
theorem ticket_id_collision_same_millisecond :
    (runV1 false false cfgFull alertEmail frozenClock okOracle 5 initLedger
        batchTwoDamaged).tickets.length = 2 ∧
    (runV1 false false cfgFull alertEmail frozenClock okOracle 5 initLedger
        batchTwoDamaged).tickets.map (fun t => t.ticketId)
      = ["T1699999999999", "T1699999999999"] := by decide

/-! ## The notifier (C6) -/

/-- C6 (amended): the main app's `send_email_alert(ticket, recipient)`
never propagates an exception: missing configuration yields
`(False, "Email settings not configured.")`, an SMTP failure with reason
`e` is caught and yields `(False, e)`, and success yields
`(True, "Email sent successfully.")`.  (`email_alerts.py`'s helper of
the same name also never raises, but returns no such pair — see the
counterexample.) -/
theorem send_email_alert_never_raises (c : EmailConfig) (oracle : SmtpOutcome)
    (t : Ticket) (recipient : String) :
    (emailConfigured c = false →
      sendEmailAlert c oracle t recipient = (false, "Email settings not configured.")) ∧
    (∀ e, emailConfigured c = true → oracle = SmtpOutcome.fail e →
      sendEmailAlert c oracle t recipient = (false, e)) ∧
    (emailConfigured c = true → oracle = SmtpOutcome.ok →
      sendEmailAlert c oracle t recipient = (true, "Email sent successfully.")) := by
  refine ⟨fun h => ?_, fun e hc ho => ?_, fun hc ho => ?_⟩ <;>
    simp [sendEmailAlert, smtpTryBlock, *]

/-- C6 witness: the three outcomes at concrete inputs. -/
theorem send_email_alert_never_raises_witness :
    sendEmailAlert cfgNoPass SmtpOutcome.ok sampleTicket alertEmail
      = (false, "Email settings not configured.") ∧
    sendEmailAlert cfgFull (SmtpOutcome.fail "boom") sampleTicket alertEmail
      = (false, "boom") ∧
    sendEmailAlert cfgFull SmtpOutcome.ok sampleTicket alertEmail
      = (true, "Email sent successfully.") :=
  ⟨(send_email_alert_never_raises cfgNoPass SmtpOutcome.ok sampleTicket alertEmail).1
      (by decide),
   (send_email_alert_never_raises cfgFull (SmtpOutcome.fail "boom") sampleTicket
      alertEmail).2.1 "boom" (by decide) rfl,
   (send_email_alert_never_raises cfgFull SmtpOutcome.ok sampleTicket alertEmail).2.2
      (by decide) rfl⟩

/-- C6 counterexample: `email_alerts.py`'s `send_email_alert` returns
Python `None` even when the send succeeds — it does not return the pair
`(true, detail)` the claim requires of every notify operation. -/
theorem email_alerts_send_returns_none :
    (emailAlertsSendEmailAlert "user@example.com" "pw" SmtpOutcome.ok "a@b.c"
      "Acme" 5).returned = none := rfl

/-! ## Ticket creation over partial rows (C10) -/

/-- C10: `create_ticket_entry` is total over partially populated rows:
a field among Complaint_ID, Supplier, Product, Order_ID absent from the
row becomes the empty string in the ticket, and every new ticket has
Status `"Open"` and empty Notes. -/
theorem create_ticket_total_defaults (r : Row) (ms : Nat) (nowStr issueText : String) :
    (createTicketEntry ms nowStr r issueText).status = "Open" ∧
    (createTicketEntry ms nowStr r issueText).notes = "" ∧
    (createTicketEntry ms nowStr r issueText).issue = issueText ∧
    (r.lookup "Complaint_ID" = none → (createTicketEntry ms nowStr r issueText).complaintId = "") ∧
    (r.lookup "Supplier" = none → (createTicketEntry ms nowStr r issueText).supplier = "") ∧
    (r.lookup "Product" = none → (createTicketEntry ms nowStr r issueText).product = "") ∧
    (r.lookup "Order_ID" = none → (createTicketEntry ms nowStr r issueText).orderId = "") := by
  refine ⟨rfl, rfl, rfl, fun h => ?_, fun h => ?_, fun h => ?_, fun h => ?_⟩ <;>
    simp [createTicketEntry, rowGet, h]

/-- C10 witness: a row carrying only a Message yields a ticket with empty
Complaint_ID, Supplier, Product, Order_ID, Status Open and empty Notes. -/
theorem create_ticket_total_defaults_witness :
    (createTicketEntry 5 "t" [("Message", "hi")] "I").status = "Open" ∧
    (createTicketEntry 5 "t" [("Message", "hi")] "I").notes = "" ∧
    (createTicketEntry 5 "t" [("Message", "hi")] "I").complaintId = "" ∧
    (createTicketEntry 5 "t" [("Message", "hi")] "I").supplier = "" ∧
    (createTicketEntry 5 "t" [("Message", "hi")] "I").product = "" ∧
    (createTicketEntry 5 "t" [("Message", "hi")] "I").orderId = "" := by
  have h := create_ticket_total_defaults [("Message", "hi")] 5 "t" "I"
  exact ⟨h.1, h.2.1, h.2.2.2.1 (by decide), h.2.2.2.2.1 (by decide),
    h.2.2.2.2.2.1 (by decide), h.2.2.2.2.2.2 (by decide)⟩

/-! ## Sorting and distinct-key lemmas -/

theorem insSorted_perm (le : α → α → Bool) (a : α) :
    ∀ l : List α, (insSorted le a l).Perm (a :: l) := by
  intro l
  induction l with
  | nil => exact List.Perm.refl _
  | cons b bs ih =>
    unfold insSorted; split
    · exact (List.Perm.cons b ih).trans (List.Perm.swap a b bs)
    · exact List.Perm.refl _

theorem foldl_insSorted_perm (le : α → α → Bool) :
    ∀ (l acc : List α), (l.foldl (fun acc a => insSorted le a acc) acc).Perm (acc ++ l) := by
  intro l
  induction l with
  | nil => intro acc; simp
  | cons a rest ih =>
    intro acc
    refine (ih (insSorted le a acc)).trans ?_
    refine (((insSorted_perm le a acc).append_right rest).trans ?_)
    exact List.perm_middle.symm

theorem stableSortBy_perm (le : α → α → Bool) (l : List α) :
    (stableSortBy le l).Perm l := by
  simpa [stableSortBy] using foldl_insSorted_perm le l []

theorem seenAux_mem :
    ∀ (l acc : List String) (a : String), a ∈ seenAux acc l ↔ a ∈ acc.reverse ∨ a ∈ l := by
  intro l
  induction l with
  | nil => intro acc a; simp [seenAux]
  | cons s rest ih =>
    intro acc a
    unfold seenAux; split
    · rename_i hmem
      rw [ih]
      simp only [List.mem_reverse, List.mem_cons]
      constructor
      · rintro (h | h)
        · exact Or.inl h
        · exact Or.inr (Or.inr h)
      · rintro (h | h | h)
        · exact Or.inl h
        · exact Or.inl (h ▸ hmem)
        · exact Or.inr h
    · rw [ih]
      simp only [List.mem_reverse, List.mem_cons]
      tauto

theorem seenAux_nodup : ∀ (l acc : List String), acc.Nodup → (seenAux acc l).Nodup := by
  intro l
  induction l with
  | nil => intro acc h; exact List.nodup_reverse.mpr h
  | cons s rest ih =>
    intro acc h
    unfold seenAux; split
    · exact ih acc h
    · rename_i hmem
      exact ih (s :: acc) (List.nodup_cons.mpr ⟨hmem, h⟩)

theorem distinctFirstSeen_mem (l : List String) (a : String) :
    a ∈ distinctFirstSeen l ↔ a ∈ l := by
  simpa [distinctFirstSeen] using seenAux_mem l [] a

theorem distinctFirstSeen_nodup (l : List String) : (distinctFirstSeen l).Nodup :=
  seenAux_nodup l [] (by simp)

/-- Counting elements equal to `S` that satisfy `f`, in a duplicate-free
list: one when `S` is present and passes `f`, zero otherwise. -/
theorem countP_eq_single (S : String) (f : String → Bool) :
    ∀ l : List String, l.Nodup →
      l.countP (fun s => s == S && f s) = if S ∈ l ∧ f S = true then 1 else 0 := by
  intro l
  induction l with
  | nil => intro _; simp
  | cons a rest ih =>
    intro hn
    rcases List.nodup_cons.mp hn with ⟨ha, hr⟩
    rw [List.countP_cons, ih hr]
    by_cases has : a = S
    · subst has
      have hrest : ¬ a ∈ rest := ha
      by_cases hf : f a = true
      · simp [hf, hrest]
      · simp [hf, hrest]
    · have h1 : (a == S) = false := by simp [has]
      have h2 : ¬ S = a := fun h => has h.symm
      simp [h1, h2, List.mem_cons]

/-! ## Aggregate-phase characterization (C1) -/

theorem aggregatePhase_tickets (mkIssue : String → Nat → String) (gate : Bool)
    (ecfg : EmailConfig) (recipient : String) (clock : Nat → Nat × String)
    (oracle : Nat → SmtpOutcome) (rows : List Row) (threshold : Nat) :
    ∀ (counts : List (String × Nat)) (st : RunState),
      (aggregatePhase mkIssue gate ecfg recipient clock oracle rows threshold counts st).tickets
        = st.tickets ++ aggTicketsFrom mkIssue clock rows threshold counts st.tick := by
  intro counts
  induction counts with
  | nil => intro st; simp [aggregatePhase, aggTicketsFrom]
  | cons p rest ih =>
    intro st
    have h0 : aggregatePhase mkIssue gate ecfg recipient clock oracle rows threshold
          (p :: rest) st
        = aggregatePhase mkIssue gate ecfg recipient clock oracle rows threshold rest
          (aggregateStep mkIssue gate ecfg recipient clock oracle rows threshold st p) := rfl
    rw [h0, ih]
    by_cases hth : threshold ≤ p.2
    · cases hfind : rows.find? (fun r => rowGet r "Supplier" == p.1) with
      | some sample =>
        cases gate <;>
          simp [aggregateStep, aggTicketsFrom, hth, hfind, List.append_assoc]
      | none => simp [aggregateStep, aggTicketsFrom, hth, hfind]
    · simp [aggregateStep, aggTicketsFrom, hth]

theorem aggTicketsFrom_supplier_countP (mkIssue : String → Nat → String)
    (clock : Nat → Nat × String) (rows : List Row) (threshold : Nat) (S : String) :
    ∀ (counts : List (String × Nat)) (k : Nat),
      (∀ p ∈ counts, ∃ r ∈ rows, rowGet r "Supplier" = p.1) →
      (aggTicketsFrom mkIssue clock rows threshold counts k).countP
          (fun t => t.supplier == S)
        = counts.countP (fun p => p.1 == S && decide (threshold ≤ p.2)) := by
  intro counts
  induction counts with
  | nil => intro k _; simp [aggTicketsFrom]
  | cons p rest ih =>
    intro k h
    have hp := h p (by simp)
    have hrest : ∀ q ∈ rest, ∃ r ∈ rows, rowGet r "Supplier" = q.1 :=
      fun q hq => h q (by simp [hq])
    by_cases hth : threshold ≤ p.2
    · obtain ⟨r0, hr0mem, hr0⟩ := hp
      have hsome : (rows.find? (fun r => rowGet r "Supplier" == p.1)).isSome := by
        rw [List.find?_isSome]
        exact ⟨r0, hr0mem, by simp [hr0]⟩
      cases hfind : rows.find? (fun r => rowGet r "Supplier" == p.1) with
      | none => rw [hfind] at hsome; simp at hsome
      | some sample =>
        have hpred := List.find?_some hfind
        have hsup : rowGet sample "Supplier" = p.1 := by simpa using hpred
        have hhead : aggTicketsFrom mkIssue clock rows threshold (p :: rest) k
            = createTicketEntry (clock k).1 (clock k).2 sample (mkIssue p.1 p.2)
              :: aggTicketsFrom mkIssue clock rows threshold rest (k + 1) := by
          simp [aggTicketsFrom, hth, hfind]
        rw [hhead, List.countP_cons, List.countP_cons, ih (k + 1) hrest]
        have hsupt : (createTicketEntry (clock k).1 (clock k).2 sample
            (mkIssue p.1 p.2)).supplier = p.1 := by
          simp [createTicketEntry, hsup]
        simp [hsupt, hth]
    · have hskip : aggTicketsFrom mkIssue clock rows threshold (p :: rest) k
          = aggTicketsFrom mkIssue clock rows threshold rest k := by
        simp [aggTicketsFrom, hth]
      rw [hskip, ih k hrest, List.countP_cons]
      simp [hth]

theorem supplierCountsStrict_suppliers_mem (classify : String → Category) (rows : List Row) :
    ∀ p ∈ supplierCountsStrict classify rows, ∃ r ∈ rows, rowGet r "Supplier" = p.1 := by
  intro p hp
  unfold supplierCountsStrict at hp
  rw [List.Perm.mem_iff (stableSortBy_perm _ _)] at hp
  obtain ⟨s, hs, rfl⟩ := List.mem_map.mp hp
  rw [distinctFirstSeen_mem] at hs
  obtain ⟨r, hr, hr2⟩ := List.mem_map.mp hs
  exact ⟨r, List.mem_of_mem_filter hr, hr2⟩

theorem supplierCountsStrict_countP (classify : String → Category) (rows : List Row)
    (S : String) (threshold : Nat) :
    (supplierCountsStrict classify rows).countP
        (fun p => p.1 == S && decide (threshold ≤ p.2))
      = if S ∈ strictSuppliers classify rows ∧ threshold ≤ strictCount classify rows S
        then 1 else 0 := by
  unfold supplierCountsStrict
  rw [List.Perm.countP_eq _ (stableSortBy_perm _ _), List.countP_map]
  have h := countP_eq_single S (fun s => decide (threshold ≤ strictCount classify rows s))
    (distinctFirstSeen (strictSuppliers classify rows)) (distinctFirstSeen_nodup _)
  rw [show ((fun p : String × Nat => p.1 == S && decide (threshold ≤ p.2)) ∘
      (fun s => (s, strictCount classify rows s)))
      = (fun s => s == S && decide (threshold ≤ strictCount classify rows s)) from rfl]
  rw [h]
  by_cases hmem : S ∈ strictSuppliers classify rows
  · by_cases hle : threshold ≤ strictCount classify rows S
    · simp [hmem, hle, distinctFirstSeen_mem]
    · simp [hmem, hle, distinctFirstSeen_mem]
  · simp [hmem, distinctFirstSeen_mem]

/-- C1 (amended): in variants 1 and 2 the per-supplier count used for the
aggregate-ticket decision counts only SupplierIssue-classified rows: for
any threshold T >= 1, a supplier whose SupplierIssue count is exactly T
gets exactly one aggregate ticket from the aggregate loop, and a
supplier whose SupplierIssue count is T-1 gets zero, regardless of its
other rows.  (Variant 3 instead counts ALL rows per supplier — see the
counterexample.) -/
theorem aggregate_ticket_strict_threshold (classify : String → Category) (rows : List Row)
    (threshold : Nat) (S : String) (gate : Bool) (ecfg : EmailConfig) (recipient : String)
    (clock : Nat → Nat × String) (oracle : Nat → SmtpOutcome) (led0 : Ledger) (k0 : Nat)
    (hT : 1 ≤ threshold) :
    (strictCount classify rows S = threshold →
      (aggregatePhase mkIssueV1 gate ecfg recipient clock oracle rows threshold
          (supplierCountsStrict classify rows) ⟨led0, [], [], k0⟩).tickets.countP
        (fun t => t.supplier == S) = 1) ∧
    (strictCount classify rows S = threshold - 1 →
      (aggregatePhase mkIssueV1 gate ecfg recipient clock oracle rows threshold
          (supplierCountsStrict classify rows) ⟨led0, [], [], k0⟩).tickets.countP
        (fun t => t.supplier == S) = 0) := by
  have hchar := aggregatePhase_tickets mkIssueV1 gate ecfg recipient clock oracle rows
    threshold (supplierCountsStrict classify rows) ⟨led0, [], [], k0⟩
  have hmem := supplierCountsStrict_suppliers_mem classify rows
  have hcount := aggTicketsFrom_supplier_countP mkIssueV1 clock rows threshold S
    (supplierCountsStrict classify rows) k0 hmem
  have hentries := supplierCountsStrict_countP classify rows S threshold
  constructor
  · intro hS
    rw [hchar]
    show (aggTicketsFrom mkIssueV1 clock rows threshold
      (supplierCountsStrict classify rows) k0).countP (fun t => t.supplier == S) = 1
    rw [hcount, hentries]
    have hmemS : S ∈ strictSuppliers classify rows := by
      have hpos : 0 < (strictSuppliers classify rows).count S := by
        show 0 < strictCount classify rows S
        omega
      exact List.count_pos_iff.mp hpos
    rw [if_pos ⟨hmemS, le_of_eq hS.symm⟩]
  · intro hS
    rw [hchar]
    show (aggTicketsFrom mkIssueV1 clock rows threshold
      (supplierCountsStrict classify rows) k0).countP (fun t => t.supplier == S) = 0
    rw [hcount, hentries]
    rw [if_neg]
    rintro ⟨-, hle⟩
    rw [hS] at hle
    omega

/-- C1 witness: on the two-Acme-supplier-issue batch, threshold 2 yields
exactly one Acme aggregate ticket and threshold 3 yields zero. -/
theorem aggregate_ticket_strict_threshold_witness :
    (aggregatePhase mkIssueV1 false cfgFull alertEmail frozenClock okOracle
        batchTwoDamaged.rows 2 (supplierCountsStrict classifyV1 batchTwoDamaged.rows)
        ⟨initLedger, [], [], 0⟩).tickets.countP (fun t => t.supplier == "Acme") = 1 ∧
    (aggregatePhase mkIssueV1 false cfgFull alertEmail frozenClock okOracle
        batchTwoDamaged.rows 3 (supplierCountsStrict classifyV1 batchTwoDamaged.rows)
        ⟨initLedger, [], [], 0⟩).tickets.countP (fun t => t.supplier == "Acme") = 0 :=
  ⟨(aggregate_ticket_strict_threshold classifyV1 batchTwoDamaged.rows 2 "Acme" false
      cfgFull alertEmail frozenClock okOracle initLedger 0 (by decide)).1 (by decide),
   (aggregate_ticket_strict_threshold classifyV1 batchTwoDamaged.rows 3 "Acme" false
      cfgFull alertEmail frozenClock okOracle initLedger 0 (by decide)).2 (by decide)⟩

/-- C1 counterexample: variant 3's aggregate decision counts ALL rows per
supplier: on a batch whose single Acme complaint is NOT a supplier issue
(SupplierIssue count 0 = T-1 for T = 1), Acme still receives one
aggregate ticket, contradicting the claim. -/
theorem aggregate_all_rows_v3_counterexample :
    strictCount classifyV3 batchAllGood.rows "Acme" = 0 ∧
    (runV3 false cfgFull alertEmail frozenClock okOracle 1 initLedger
        batchAllGood).tickets.countP (fun t => t.supplier == "Acme") = 1 := by decide

/-! ## Per-row phase characterization (C8) -/

theorem perRowPhase_tickets (classify : String → Category) (gate : Bool)
    (ecfg : EmailConfig) (recipient : String) (clock : Nat → Nat × String)
    (oracle : Nat → SmtpOutcome) :
    ∀ (rows : List Row) (st : RunState),
      (perRowPhase classify gate ecfg recipient clock oracle rows st).tickets
        = st.tickets ++ perRowTicketsFrom classify clock rows st.tick := by
  intro rows
  induction rows with
  | nil => intro st; simp [perRowPhase, perRowTicketsFrom]
  | cons r rest ih =>
    intro st
    have h0 : perRowPhase classify gate ecfg recipient clock oracle (r :: rest) st
        = perRowPhase classify gate ecfg recipient clock oracle rest
          (perRowStep classify gate ecfg recipient clock oracle st r) := rfl
    rw [h0, ih]
    by_cases hcl : (classify (rowGet r "Message") == Category.SupplierIssue) = true
    · cases gate <;> simp [perRowStep, perRowTicketsFrom, hcl, List.append_assoc]
    · simp [perRowStep, perRowTicketsFrom, hcl]

theorem perRowPhase_ledger (classify : String → Category) (gate : Bool)
    (ecfg : EmailConfig) (recipient : String) (clock : Nat → Nat × String)
    (oracle : Nat → SmtpOutcome) :
    ∀ (rows : List Row) (st : RunState),
      (perRowPhase classify gate ecfg recipient clock oracle rows st).ledger
        = st.ledger ++ (perRowTicketsFrom classify clock rows st.tick).map ticketToRow := by
  intro rows
  induction rows with
  | nil => intro st; simp [perRowPhase, perRowTicketsFrom]
  | cons r rest ih =>
    intro st
    have h0 : perRowPhase classify gate ecfg recipient clock oracle (r :: rest) st
        = perRowPhase classify gate ecfg recipient clock oracle rest
          (perRowStep classify gate ecfg recipient clock oracle st r) := rfl
    rw [h0, ih]
    by_cases hcl : (classify (rowGet r "Message") == Category.SupplierIssue) = true
    · cases gate <;>
        simp [perRowStep, perRowTicketsFrom, appendTicket, hcl, List.append_assoc]
    · simp [perRowStep, perRowTicketsFrom, hcl]

theorem perRowTicketsFrom_length (classify : String → Category)
    (clock : Nat → Nat × String) :
    ∀ (rows : List Row) (k : Nat),
      (perRowTicketsFrom classify clock rows k).length = (strictRows classify rows).length := by
  intro rows
  induction rows with
  | nil => intro k; simp [perRowTicketsFrom, strictRows]
  | cons r rest ih =>
    intro k
    by_cases hcl : (classify (rowGet r "Message") == Category.SupplierIssue) = true
    · simp [perRowTicketsFrom, strictRows, List.filter_cons, hcl, ih]
    · simp [perRowTicketsFrom, strictRows, List.filter_cons, hcl, ih]

theorem perRowTicketsFrom_fields (classify : String → Category)
    (clock : Nat → Nat × String) :
    ∀ (rows : List Row) (k : Nat),
      (perRowTicketsFrom classify clock rows k).map ticketFields
        = (strictRows classify rows).map rowFields := by
  intro rows
  induction rows with
  | nil => intro k; simp [perRowTicketsFrom, strictRows]
  | cons r rest ih =>
    intro k
    by_cases hcl : (classify (rowGet r "Message") == Category.SupplierIssue) = true
    · have hhead : ticketFields (createTicketEntry (clock k).1 (clock k).2 r perRowIssueText)
          = rowFields r := rfl
      simp [perRowTicketsFrom, strictRows, List.filter_cons, hcl, ih, hhead]
    · simp [perRowTicketsFrom, strictRows, List.filter_cons, hcl, ih]

/-- C8: the per-row ticket loop creates exactly one ticket per row
classified SupplierIssue, in input order, each with issue text
"Supplier Issue detected from complaint text" and with fields taken from
its row, and appends each to the tickets file. -/
theorem per_row_tickets_spec (classify : String → Category) (gate : Bool)
    (ecfg : EmailConfig) (recipient : String) (clock : Nat → Nat × String)
    (oracle : Nat → SmtpOutcome) (rows : List Row) (led0 : Ledger) (k0 : Nat) :
    (perRowPhase classify gate ecfg recipient clock oracle rows
        ⟨led0, [], [], k0⟩).tickets.length = (strictRows classify rows).length ∧
    (perRowPhase classify gate ecfg recipient clock oracle rows
        ⟨led0, [], [], k0⟩).tickets.map ticketFields
      = (strictRows classify rows).map rowFields ∧
    (perRowPhase classify gate ecfg recipient clock oracle rows
        ⟨led0, [], [], k0⟩).ledger
      = led0 ++ (perRowPhase classify gate ecfg recipient clock oracle rows
          ⟨led0, [], [], k0⟩).tickets.map ticketToRow := by
  have ht := perRowPhase_tickets classify gate ecfg recipient clock oracle rows
    ⟨led0, [], [], k0⟩
  have hl := perRowPhase_ledger classify gate ecfg recipient clock oracle rows
    ⟨led0, [], [], k0⟩
  refine ⟨?_, ?_, ?_⟩
  · rw [ht]
    show (perRowTicketsFrom classify clock rows k0).length = _
    exact perRowTicketsFrom_length classify clock rows k0
  · rw [ht]
    show (perRowTicketsFrom classify clock rows k0).map ticketFields = _
    exact perRowTicketsFrom_fields classify clock rows k0
  · rw [hl, ht]
    rfl

/-! ## Notification balance (C5) -/

theorem perRowPhase_balance (classify : String → Category) (ecfg : EmailConfig)
    (recipient : String) (clock : Nat → Nat × String) (oracle : Nat → SmtpOutcome) :
    ∀ (rows : List Row) (st : RunState), st.notifs.length = st.tickets.length →
      (perRowPhase classify true ecfg recipient clock oracle rows st).notifs.length
        = (perRowPhase classify true ecfg recipient clock oracle rows st).tickets.length := by
  intro rows
  induction rows with
  | nil => intro st h; simpa [perRowPhase] using h
  | cons r rest ih =>
    intro st h
    have h0 : perRowPhase classify true ecfg recipient clock oracle (r :: rest) st
        = perRowPhase classify true ecfg recipient clock oracle rest
          (perRowStep classify true ecfg recipient clock oracle st r) := rfl
    rw [h0]
    apply ih
    by_cases hcl : (classify (rowGet r "Message") == Category.SupplierIssue) = true
    · simp [perRowStep, hcl, h]
    · simp [perRowStep, hcl, h]

theorem aggregatePhase_balance (mkIssue : String → Nat → String) (ecfg : EmailConfig)
    (recipient : String) (clock : Nat → Nat × String) (oracle : Nat → SmtpOutcome)
    (rows : List Row) (threshold : Nat) :
    ∀ (counts : List (String × Nat)) (st : RunState),
      st.notifs.length = st.tickets.length →
      (aggregatePhase mkIssue true ecfg recipient clock oracle rows threshold
          counts st).notifs.length
        = (aggregatePhase mkIssue true ecfg recipient clock oracle rows threshold
          counts st).tickets.length := by
  intro counts
  induction counts with
  | nil => intro st h; simpa [aggregatePhase] using h
  | cons p rest ih =>
    intro st h
    have h0 : aggregatePhase mkIssue true ecfg recipient clock oracle rows threshold
          (p :: rest) st
        = aggregatePhase mkIssue true ecfg recipient clock oracle rows threshold rest
          (aggregateStep mkIssue true ecfg recipient clock oracle rows threshold st p) := rfl
    rw [h0]
    apply ih
    by_cases hth : threshold ≤ p.2
    · cases hfind : rows.find? (fun r => rowGet r "Supplier" == p.1) with
      | some sample => simp [aggregateStep, hth, hfind, h]
      | none => simp [aggregateStep, hth, hfind, h]
    · simp [aggregateStep, hth, h]

theorem runMain_balance (classify : String → Category)
    (countsOf : List Row → List (String × Nat)) (mkIssue : String → Nat → String)
    (ecfg : EmailConfig) (recipient : String) (clock : Nat → Nat × String)
    (oracle : Nat → SmtpOutcome) (threshold : Nat) (led0 : Ledger) (b : Batch) :
    (runMain classify countsOf mkIssue true ecfg recipient clock oracle threshold
        led0 b).notifs.length
      = (runMain classify countsOf mkIssue true ecfg recipient clock oracle threshold
        led0 b).tickets.length := by
  unfold runMain
  by_cases h1 : b.cols.contains "Message" = false
  · rw [if_pos h1]
    rfl
  · rw [if_neg h1]
    by_cases h2 : (displayCols.all fun c => b.cols.contains c) = false
    · rw [if_pos h2]
      rfl
    · rw [if_neg h2]
      exact aggregatePhase_balance mkIssue ecfg recipient clock oracle b.rows threshold
        (countsOf b.rows) _
        (perRowPhase_balance classify ecfg recipient clock oracle b.rows
          ⟨led0, [], [], 0⟩ rfl)

/-- C5 (amended): when notification is enabled — in variant 1 this
requires BOTH the per-ticket checkbox (`email_alerts`) and the
`USE_EMAIL_ALERTS` environment flag, in variant 3 only the checkbox —
the notifier is invoked exactly once per ticket created in the run,
per-row and aggregate alike (the run trace records one outcome per
created ticket).  The code itself discards each `send_email_alert`
return value.  (With the checkbox on but `USE_EMAIL_ALERTS` off,
variant 1 notifies for no ticket — see the counterexample.) -/
theorem notify_once_per_ticket (emailAlerts useEmailAlerts : Bool) (ecfg : EmailConfig)
    (recipient : String) (clock : Nat → Nat × String) (oracle : Nat → SmtpOutcome)
    (threshold : Nat) (led0 : Ledger) (b : Batch)
    (h1 : emailAlerts = true) (h2 : useEmailAlerts = true) :
    (runV1 emailAlerts useEmailAlerts ecfg recipient clock oracle threshold
        led0 b).notifs.length
      = (runV1 emailAlerts useEmailAlerts ecfg recipient clock oracle threshold
        led0 b).tickets.length ∧
    (runV3 emailAlerts ecfg recipient clock oracle threshold led0 b).notifs.length
      = (runV3 emailAlerts ecfg recipient clock oracle threshold led0 b).tickets.length := by
  subst h1; subst h2
  exact ⟨runMain_balance classifyV1 (supplierCountsStrict classifyV1) mkIssueV1 ecfg
      recipient clock oracle threshold led0 b,
    runMain_balance classifyV3 supplierCountsAll mkIssueV3 ecfg recipient clock oracle
      threshold led0 b⟩

/-- C5 witness: with both flags on, the one-damaged-row run records as
many notification outcomes as tickets. -/
theorem notify_once_per_ticket_witness :
    (runV1 true true cfgFull alertEmail frozenClock okOracle 5 initLedger
        batchOneDamaged).notifs.length
      = (runV1 true true cfgFull alertEmail frozenClock okOracle 5 initLedger
        batchOneDamaged).tickets.length :=
  (notify_once_per_ticket true true cfgFull alertEmail frozenClock okOracle 5 initLedger
    batchOneDamaged rfl rfl).1

/-- C5 counterexample: variant 1 with `notify_per_ticket`
(`email_alerts`) true but `USE_EMAIL_ALERTS` false creates a ticket yet
invokes the notifier zero times, contradicting "invoked exactly once for
every ticket created". -/
theorem notify_gate_counterexample :
    (runV1 true false cfgFull alertEmail frozenClock okOracle 5 initLedger
        batchOneDamaged).tickets.length = 1 ∧
    (runV1 true false cfgFull alertEmail frozenClock okOracle 5 initLedger
        batchOneDamaged).notifs = [] := by decide

/-! ## Required-column precondition (C4) -/

/-- C4 (amended): variant 2 checks the required columns (Complaint_ID,
Message, Supplier, Product) BEFORE any processing: a batch missing one
is rejected with an error display, no row is classified, no ticket is
created, no notification is attempted and the tickets file is unchanged.
(Variants 1 and 3 have no such check — see the counterexample.) -/
theorem missing_columns_rejected_v2 (classify : String → Category) (ecfg : EmailConfig)
    (clock : Nat → Nat × String) (oracle : Nat → SmtpOutcome) (threshold : Nat)
    (led0 : Ledger) (b : Batch)
    (h : (requiredColsV2.all (fun c => b.cols.contains c)) = false) :
    runV2 classify ecfg clock oracle threshold led0 b
      = ⟨[], [], [], led0,
         some "Uploaded CSV must contain columns: Complaint_ID, Message, Supplier, Product"⟩ := by
  unfold runV2
  rw [if_pos h]

/-- C4 witness: a batch without a `Supplier` column is rejected by the
variant 2 run with the ledger untouched. -/
theorem missing_columns_rejected_v2_witness :
    runV2 classifyV1 cfgFull frozenClock okOracle 3 initLedger batchNoSupplierCol
      = ⟨[], [], [], initLedger,
         some "Uploaded CSV must contain columns: Complaint_ID, Message, Supplier, Product"⟩ :=
  missing_columns_rejected_v2 classifyV1 cfgFull frozenClock okOracle 3 initLedger
    batchNoSupplierCol (by decide)

/-- C4 counterexample: variant 1 has no required-column check: on a batch
missing the `Supplier` column it classifies the row (so processing DOES
happen before any rejection) and only afterwards dies with a KeyError at
the display selection, contradicting "no row is classified". -/
theorem missing_column_classified_v1 :
    (runV1 true true cfgFull alertEmail frozenClock okOracle 3 initLedger
        batchNoSupplierCol).classified = [Category.SupplierIssue] ∧
    (runV1 true true cfgFull alertEmail frozenClock okOracle 3 initLedger
        batchNoSupplierCol).error = some "KeyError: display column" := by decide

end Meesho
